import Mathlib

set_option maxRecDepth 40000

/-!
Verification of `gpt_researcher/FAR10_promptfamily.py` (prompt families for
FAR Part 10 market research).

The module is pure string assembly, so the shallow embedding below maps each
Python function to a total Lean function on `String`/`Int`/`Option`/`List`.
Conventions used throughout:

* Python `int` is `Int`; `str(i)` interpolation is `toString i`.
* Python `None`-able parameters are `Option _`; f-string interpolation of a
  possibly-`None` metadata value renders `none` as `"None"` (`pyStrOf`).
* Python truthiness of a string (`if parent_query`, `if tone`) is the test
  against `""` / `none`, written out explicitly.
* `str.upper()` is `pyUpper` (per-character uppercasing, which agrees with
  Python on the ASCII strings the module handles).
* `list[:n]` (including negative `n`) is `listSliceTo`.
* `date.today()` is the one impure input; it is injected as an explicit
  `today : String` parameter of the FAR report operation.
* `warnings.warn` is modelled by returning the list of warning messages
  emitted alongside the result.
* The U+2011 non-breaking hyphen appearing inside several source literals is
  written with the explicit escape `‑` so it cannot be confused with an
  ASCII hyphen.
-/

/-- One retrieved document, as consumed by `pretty_print_docs`: the
`metadata.get('source')` / `metadata.get('title')` lookups (absent key =
`none`) and the `page_content` body. -/
structure Document where
  source : Option String
  title : Option String
  page_content : String
deriving DecidableEq

/-- Python f-string rendering of a possibly-missing metadata value:
`None` prints as `"None"`. -/
def pyStrOf : Option String → String
  | none => "None"
  | some s => s

/-- Per-character uppercasing, modelling Python `str.upper()` on the ASCII
strings this module handles. -/
def pyUpper (s : String) : String := String.mk (s.data.map Char.toUpper)

/-- Python list slicing `l[:n]`, including the negative-`n` case where the
stop index counts from the end (`l[:n] = l[0 : max(len(l)+n, 0)]`). -/
def listSliceTo (l : List String) (n : Int) : List String :=
  if 0 ≤ n then l.take n.toNat else l.take ((l.length : Int) + n).toNat

/-- The per-document block built inside `pretty_print_docs` (source line 39):
`f"Source: {d.metadata.get('source')}\nTitle: {d.metadata.get('title')}\nContent: {d.page_content}"`. -/
def docBlock (d : Document) : String :=
  "Source: " ++ pyStrOf d.source ++ "\nTitle: " ++ pyStrOf d.title ++ "\nContent: " ++ d.page_content

/-- The list of blocks selected by the generator in `pretty_print_docs`
(source lines 38-41): one block per `(i, d)` of `enumerate(docs)` with
`top_n is None or i < top_n`. -/
def PromptFamily.doc_blocks (docs : List Document) (top_n : Option Int) : List String :=
  (docs.enum.filter (fun p => match top_n with
    | none => true
    | some n => decide ((p.1 : Int) < n))).map (fun p => docBlock p.2)

/-- `PromptFamily.pretty_print_docs` (source lines 35-41). -/
def PromptFamily.pretty_print_docs (docs : List Document) (top_n : Option Int) : String :=
  String.intercalate "\n" (PromptFamily.doc_blocks docs top_n)

/-- The `task` local computed identically at source lines 50 and 94:
`f"{parent_query} - {question}" if parent_query else question` (string
truthiness = non-emptiness). -/
def taskOf (parent_query question : String) : String :=
  if parent_query = "" then question else parent_query ++ " - " ++ question

/-- The `tone_clause` local computed identically at source lines 62 and 131:
`f"Write in a {tone} tone." if tone else ""` (`None` and `""` are falsy). -/
def tone_clause : Option String → String
  | none => ""
  | some t => if t = "" then "" else "Write in a " ++ t ++ " tone."

/-- Descriptor mapping for one MCP tool, restricted to the string-valued,
JSON-serializable shape the module's documented inputs use. -/
def ToolInfo : Type := List (String × String)

/-- The `dynamic_example` list built at source line 51:
`[f'"query {i+1}"' for i in range(max_iterations)]` (empty for
non-positive `max_iterations`, as in Python). -/
def PromptFamily.dynamic_example_list (max_iterations : Int) : List String :=
  (List.range max_iterations.toNat).map (fun i => "\"query " ++ toString (i + 1) ++ "\"")

/-- `PromptFamily.generate_search_queries_prompt` (source lines 46-55). -/
def PromptFamily.generate_search_queries_prompt (question parent_query report_type : String)
    (max_iterations : Int) (context : Option (List ToolInfo)) : String :=
  "Write " ++ toString max_iterations ++ " web search queries to learn about: \"" ++
    taskOf parent_query question ++ "\".\n" ++
    "Return a Python list → [" ++
    String.intercalate ", " (PromptFamily.dynamic_example_list max_iterations) ++ "] only."

/-- Default of `max_iterations` in both query generators (source lines 48, 92). -/
def max_iterations_default : Int := 3

/-- Default of `total_words` in `PromptFamily.generate_report_prompt`
(source line 59). -/
def PromptFamily.total_words_default : Int := 1000

/-- Default of `tone` in `PromptFamily.generate_report_prompt` (source line 60). -/
def PromptFamily.tone_default : Option String := none

/-- `PromptFamily.generate_report_prompt` (source lines 57-69). -/
def PromptFamily.generate_report_prompt (question context report_source report_format : String)
    (total_words : Int) (tone : Option String) (language : String) : String :=
  "Information gathered: \"" ++ context ++ "\"\n---\n" ++
    "Using that information, draft a " ++ toString total_words ++
    "+ word report answering: \"" ++ question ++ "\".\n" ++
    "• Use markdown + " ++ pyUpper report_format ++ " citations.\n" ++
    "• " ++ tone_clause tone ++ "\n" ++
    "• Language: " ++ language ++ ".\n"

/-- `FARPart10PromptFamily._PRIMARY_SOURCES` (source lines 79-85). -/
def FARPart10PromptFamily._PRIMARY_SOURCES : List String :=
  ["GSA eLibrary",
   "GSA Advantage",
   "USAspending.gov",
   "SBA Dynamic Small Business Search (DSBS)",
   "Federal Procurement Data System (FPDS)"]

/-- The `gov_hint` local of the FAR query generator (source line 96):
`", ".join(_PRIMARY_SOURCES)`. -/
def FARPart10PromptFamily.gov_hint : String :=
  String.intercalate ", " FARPart10PromptFamily._PRIMARY_SOURCES

/-- The `dynamic_example` list of the FAR query generator (source line 97):
`[f'"{s} {task}"' for s in _PRIMARY_SOURCES[:max_iterations]]`. -/
def FARPart10PromptFamily.dynamic_example_list (task : String) (max_iterations : Int) :
    List String :=
  (listSliceTo FARPart10PromptFamily._PRIMARY_SOURCES max_iterations).map
    (fun s => "\"" ++ s ++ " " ++ task ++ "\"")

/-- `FARPart10PromptFamily.generate_search_queries_prompt` (source lines 90-102). -/
def FARPart10PromptFamily.generate_search_queries_prompt
    (question parent_query report_type : String)
    (max_iterations : Int) (context : Option (List ToolInfo)) : String :=
  "You are performing FAR Part 10 market research.  Generate up to " ++
    toString max_iterations ++
    " highly‑targeted “site:” or keyword queries that will surface contractor information from these primary systems first: " ++
    FARPart10PromptFamily.gov_hint ++ ".  \n" ++
    "Task: \"" ++ taskOf parent_query question ++ "\". Return ONLY a Python list, e.g. [" ++
    String.intercalate ", "
      (FARPart10PromptFamily.dynamic_example_list (taskOf parent_query question) max_iterations) ++
    "]."

/-- Hex digit used by the JSON string escaper (lowercase, as CPython emits). -/
def hexDigit (n : Nat) : Char :=
  if n < 10 then Char.ofNat (48 + n) else Char.ofNat (87 + n)

/-- Four lowercase hex digits of `n % 65536`. -/
def hex4 (n : Nat) : String :=
  String.mk [hexDigit (n / 4096 % 16), hexDigit (n / 256 % 16), hexDigit (n / 16 % 16),
    hexDigit (n % 16)]

/-- CPython `json.dumps` escaping of one character (default `ensure_ascii=True`:
short escapes for the common controls, `\uXXXX` for other controls and all
non-ASCII, surrogate pairs beyond the BMP). -/
def jsonEscapeChar (c : Char) : String :=
  if c = '"' then "\\\""
  else if c = '\\' then "\\\\"
  else if c = '\n' then "\\n"
  else if c = '\t' then "\\t"
  else if c = '\r' then "\\r"
  else if c = Char.ofNat 8 then "\\b"
  else if c = Char.ofNat 12 then "\\f"
  else if c.toNat < 32 then "\\u" ++ hex4 c.toNat
  else if c.toNat ≤ 126 then String.mk [c]
  else if c.toNat < 65536 then "\\u" ++ hex4 c.toNat
  else "\\u" ++ hex4 (55296 + (c.toNat - 65536) / 1024) ++
    "\\u" ++ hex4 (56320 + (c.toNat - 65536) % 1024)

/-- CPython JSON escaping of a whole string (without the surrounding quotes). -/
def jsonEscape (s : String) : String := String.join (s.data.map jsonEscapeChar)

/-- `json.dumps` of one string-valued descriptor dict, rendered at nesting
depth 1 with `indent=2` (keys at 4 spaces, closing brace at 2). -/
def jsonDumpDict (d : List (String × String)) : String :=
  match d with
  | [] => "\x7b\x7d"
  | _ => "\x7b\n" ++
      String.intercalate ",\n"
        (d.map (fun kv => "    \"" ++ jsonEscape kv.1 ++ "\": \"" ++ jsonEscape kv.2 ++ "\"")) ++
      "\n  \x7d"

/-- `json.dumps(tools_info, indent=2)` for the restricted string-valued
descriptor shape (source line 118). -/
def jsonDumpsIndent2 (tools_info : List ToolInfo) : String :=
  match tools_info with
  | [] => "[]"
  | _ => "[\n" ++ String.intercalate ",\n" (tools_info.map (fun d => "  " ++ jsonDumpDict d)) ++
      "\n]"

/-- The `far_lang` local of the tool-selection prompt (source lines 112-114). -/
def FARPart10PromptFamily.far_lang : String :=
  "When selecting tools, prefer those that query authoritative government acquisition data sets (GSA, FPDS, USAspending, SBA DSBS) before generic web search utilities."

/-- `FARPart10PromptFamily.generate_mcp_tool_selection_prompt` (source lines 107-120). -/
def FARPart10PromptFamily.generate_mcp_tool_selection_prompt (query : String)
    (tools_info : List ToolInfo) (max_tools : Int) : String :=
  "You are a FAR Part 10 market‑research assistant.  " ++ FARPart10PromptFamily.far_lang ++
    "\n\n" ++
    "RESEARCH QUERY: \"" ++ query ++ "\"\n\n" ++
    "AVAILABLE TOOLS:\n" ++ jsonDumpsIndent2 tools_info ++ "\n\n" ++
    "Select EXACTLY " ++ toString max_tools ++
    " tools best suited to gather competitive sourcing information.  Return the JSON object described below."

/-- Default of `total_words` in `FARPart10PromptFamily.generate_report_prompt`
(source line 127). -/
def FARPart10PromptFamily.total_words_default : Int := 800

/-- Default of `tone` in `FARPart10PromptFamily.generate_report_prompt`
(source line 128). -/
def FARPart10PromptFamily.tone_default : Option String := some "objective"

/-- The `source_clause` local of the FAR report prompt (source line 132):
present exactly when `report_source == "web"`. -/
def FARPart10PromptFamily.source_clause (report_source : String) : String :=
  if report_source = "web"
  then "List contract numbers & links from each cited system at the end."
  else ""

/-- The five fixed required-element lines of the FAR report prompt
(source lines 137-141), one contiguous literal block. -/
def FARPart10PromptFamily.required_elements : String :=
  "1. Potential sources and their socio‑economic status (e.g., Small, 8(a), HUBZone).\n" ++
    "2. Contract vehicles (GSA schedules, BPAs, IDIQs) where the requirement could be placed.\n" ++
    "3. Recent relevant contract awards with pricing data.\n" ++
    "4. Assessment of competition & capability.\n" ++
    "5. Recommendation (adequate competition? set‑aside feasible?).\n"

/-- `FARPart10PromptFamily.generate_report_prompt` (source lines 125-145); the
wall-clock `date.today()` read is injected as the `today` parameter. -/
def FARPart10PromptFamily.generate_report_prompt
    (today question context report_source report_format : String)
    (total_words : Int) (tone : Option String) (language : String) : String :=
  "Information collected: \n\"" ++ context ++ "\"\n---\n" ++
    "Draft a concise FAR Part 10 market research report (≥" ++ toString total_words ++
    " words) addressing: \"" ++ question ++ "\".\n" ++
    "Required elements:\n" ++
    FARPart10PromptFamily.required_elements ++
    "• Use markdown + " ++ pyUpper report_format ++ " citations.\n" ++
    "• " ++ tone_clause tone ++ "  • " ++ FARPart10PromptFamily.source_clause report_source ++
    "\n" ++
    "• Date: " ++ today ++ ".  Language: " ++ language ++ "."

/-- Opaque stand-in for the external `Config` object: held by instances,
never consulted by any operation. -/
inductive Config
  | mk
deriving DecidableEq

/-- The two family classes of the module. -/
inductive FamilyClass
  | Default
  | FARPart10
deriving DecidableEq

/-- A constructed prompt-family instance: its class plus the opaque `cfg`
stored by `__init__` (source lines 29-30). -/
structure FamilyInstance where
  family : FamilyClass
  cfg : Option Config
deriving DecidableEq

/-- The uniform type of a bound report-generation method: the injected
`today`, then the Python signature
`(question, context, report_source, report_format, total_words, tone, language)`. -/
def ReportMethod : Type :=
  String → String → String → String → String → Int → Option String → String → String

/-- The report-generation method of each family class (Python method
dispatch on `generate_report_prompt`); the base method ignores `today`. -/
def report_method (fc : FamilyClass) : ReportMethod :=
  fun today question context report_source report_format total_words tone language =>
    match fc with
    | FamilyClass.Default =>
        PromptFamily.generate_report_prompt question context report_source report_format
          total_words tone language
    | FamilyClass.FARPart10 =>
        FARPart10PromptFamily.generate_report_prompt today question context report_source
          report_format total_words tone language

/-- `report_type_mapping` (source lines 156-158). -/
def report_type_mapping : String → Option String := fun report_type =>
  if report_type = "ResearchReport" then some "generate_report_prompt" else none

/-- `getattr(prompt_family, method_name)` restricted to the report methods the
module ever looks up: `none` models the `AttributeError` of a failed lookup. -/
def getattr_report (fam : FamilyInstance) (method_name : String) : Option ReportMethod :=
  if method_name = "generate_report_prompt" then some (report_method fam.family) else none

/-- `get_prompt_by_report_type` (source lines 161-163). -/
def get_prompt_by_report_type (report_type : String) (prompt_family : FamilyInstance) :
    Option ReportMethod :=
  getattr_report prompt_family ((report_type_mapping report_type).getD "generate_report_prompt")

/-- `prompt_family_mapping` (source lines 168-171). -/
def prompt_family_mapping : String → Option FamilyClass := fun name =>
  if name = "Default" then some FamilyClass.Default
  else if name = "FARPart10" then some FamilyClass.FARPart10
  else none

/-- `get_prompt_family` (source lines 174-179), returning the constructed
instance together with the list of warnings emitted. -/
def get_prompt_family (name : String) (config : Option Config) :
    FamilyInstance × List String :=
  let cls := (prompt_family_mapping name).getD FamilyClass.Default
  let warns := match prompt_family_mapping name with
    | some _ => []
    | none => ["Unknown prompt family '" ++ name ++ "', using Default."]
  (⟨cls, config⟩, warns)

/-- A concrete sample document used by witness and counterexample theorems. -/
def docEx : Document := ⟨some "s1", some "t1", "c1"⟩

/-- The five required-element markers of the FAR report, as enumerated by the
specification (socio-economic status, contract vehicles, recent awards,
competition assessment, recommendation); each is a literal substring of
`FARPart10PromptFamily.required_elements`. -/
def farMarkers : List String :=
  ["socio‑economic status",
   "Contract vehicles",
   "Recent relevant contract awards",
   "Assessment of competition",
   "Recommendation"]

/-- Block count claimed by the spec's testable property, following its words:
`min(top_n or len(documents), len(documents))` where `or` is Python's
truthiness-based operator (`None` and `0` are falsy, so both fall back to
`len(documents)`). -/
def specClaimedBlockCount (top_n : Option Int) (len : Nat) : Int :=
  min (match top_n with
       | none => (len : Int)
       | some n => if n = 0 then (len : Int) else n)
    (len : Int)

/-! ### Helper lemmas -/

/-- Splicing: if a string decomposes around `mid` and `mid` decomposes around
`m`, the string decomposes around `m`. -/
theorem mid_split {X pre mid post a m b : String} (h1 : X = pre ++ mid ++ post)
    (h2 : mid = a ++ m ++ b) : ∃ u v, X = u ++ m ++ v := by
  refine ⟨pre ++ a, b ++ post, ?_⟩
  rw [h1, h2]
  repeat rw [String.append_assoc]

/-- With `top_n = None` every document is kept, in order. -/
theorem doc_blocks_none (docs : List Document) :
    PromptFamily.doc_blocks docs none = docs.map docBlock := by
  show (docs.enum.filter (fun _ => true)).map (fun p => docBlock p.2) = docs.map docBlock
  rw [List.filter_true]
  conv_rhs => rw [← List.enum_map_snd docs]
  rw [List.map_map]
  rfl

/-- Filtering `enumerate`-indices below `n` keeps exactly the first
`(n - k).toNat` elements when indexing starts at `k`. -/
theorem doc_blocks_some_aux (n : Int) :
    ∀ (docs : List Document) (k : Nat),
      ((List.enumFrom k docs).filter (fun p => decide ((p.1 : Int) < n))).map
          (fun p => docBlock p.2)
        = (docs.take (n - (k : Int)).toNat).map docBlock := by
  intro docs
  induction docs with
  | nil => intro k; simp
  | cons d ds ih =>
      intro k
      rw [show List.enumFrom k (d :: ds) = (k, d) :: List.enumFrom (k + 1) ds from rfl]
      simp only [List.filter_cons, decide_eq_true_eq]
      by_cases h : ((k : Int) < n)
      · rw [if_pos h, List.map_cons, ih (k + 1)]
        have h2 : (n - (k : Int)).toNat = (n - ((k + 1 : Nat) : Int)).toNat + 1 := by
          push_cast
          omega
        rw [h2, List.take_succ_cons, List.map_cons]
      · rw [if_neg h, ih (k + 1)]
        have h2 : (n - ((k + 1 : Nat) : Int)).toNat = 0 := by
          push_cast
          omega
        have h3 : (n - (k : Int)).toNat = 0 := by omega
        rw [h2, h3]
        rfl

/-- With an integer `top_n = n` exactly the first `n.toNat` documents are
kept, in order (negative `n` keeps none). -/
theorem doc_blocks_some (docs : List Document) (n : Int) :
    PromptFamily.doc_blocks docs (some n) = (docs.take n.toNat).map docBlock := by
  show ((List.enumFrom 0 docs).filter (fun p => decide ((p.1 : Int) < n))).map
      (fun p => docBlock p.2) = (docs.take n.toNat).map docBlock
  rw [doc_blocks_some_aux n docs 0]
  norm_num

/-- Decomposition of the base query prompt around the embedded task. -/
theorem base_gsqp_task_decomp (question parent_query report_type : String)
    (max_iterations : Int) (context : Option (List ToolInfo)) :
    PromptFamily.generate_search_queries_prompt question parent_query report_type
        max_iterations context
      = ("Write " ++ toString max_iterations ++ " web search queries to learn about: \"")
        ++ taskOf parent_query question
        ++ ("\".\n" ++ "Return a Python list → [" ++
            String.intercalate ", " (PromptFamily.dynamic_example_list max_iterations) ++
            "] only.") := by
  simp only [PromptFamily.generate_search_queries_prompt]
  repeat rw [String.append_assoc]

/-- Decomposition of the FAR query prompt around the embedded task (the
`Task: "…"` occurrence). -/
theorem far_gsqp_task_decomp (question parent_query report_type : String)
    (max_iterations : Int) (context : Option (List ToolInfo)) :
    FARPart10PromptFamily.generate_search_queries_prompt question parent_query report_type
        max_iterations context
      = ("You are performing FAR Part 10 market research.  Generate up to " ++
          toString max_iterations ++
          " highly‑targeted “site:” or keyword queries that will surface contractor information from these primary systems first: " ++
          FARPart10PromptFamily.gov_hint ++ ".  \n" ++ "Task: \"")
        ++ taskOf parent_query question
        ++ ("\". Return ONLY a Python list, e.g. [" ++
            String.intercalate ", "
              (FARPart10PromptFamily.dynamic_example_list (taskOf parent_query question)
                max_iterations) ++ "].") := by
  simp only [FARPart10PromptFamily.generate_search_queries_prompt]
  repeat rw [String.append_assoc]

/-- Decomposition of the FAR query prompt around the full primary-sources
hint. -/
theorem far_gsqp_hint_decomp (question parent_query report_type : String)
    (max_iterations : Int) (context : Option (List ToolInfo)) :
    FARPart10PromptFamily.generate_search_queries_prompt question parent_query report_type
        max_iterations context
      = ("You are performing FAR Part 10 market research.  Generate up to " ++
          toString max_iterations ++
          " highly‑targeted “site:” or keyword queries that will surface contractor information from these primary systems first: ")
        ++ FARPart10PromptFamily.gov_hint
        ++ (".  \n" ++ "Task: \"" ++ taskOf parent_query question ++
            "\". Return ONLY a Python list, e.g. [" ++
            String.intercalate ", "
              (FARPart10PromptFamily.dynamic_example_list (taskOf parent_query question)
                max_iterations) ++ "].") := by
  simp only [FARPart10PromptFamily.generate_search_queries_prompt]
  repeat rw [String.append_assoc]

/-- Decomposition of the FAR query prompt around the inline example list. -/
theorem far_gsqp_examples_decomp (question parent_query report_type : String)
    (max_iterations : Int) (context : Option (List ToolInfo)) :
    FARPart10PromptFamily.generate_search_queries_prompt question parent_query report_type
        max_iterations context
      = ("You are performing FAR Part 10 market research.  Generate up to " ++
          toString max_iterations ++
          " highly‑targeted “site:” or keyword queries that will surface contractor information from these primary systems first: " ++
          FARPart10PromptFamily.gov_hint ++ ".  \n" ++ "Task: \"" ++
          taskOf parent_query question ++ "\". Return ONLY a Python list, e.g. [")
        ++ String.intercalate ", "
            (FARPart10PromptFamily.dynamic_example_list (taskOf parent_query question)
              max_iterations)
        ++ "]." := by
  simp only [FARPart10PromptFamily.generate_search_queries_prompt]

/-- Each primary-source name is a literal substring of the joined hint. -/
theorem gov_hint_has (src : String) (h : src ∈ FARPart10PromptFamily._PRIMARY_SOURCES) :
    ∃ a b, FARPart10PromptFamily.gov_hint = a ++ src ++ b := by
  simp only [FARPart10PromptFamily._PRIMARY_SOURCES, List.mem_cons, List.not_mem_nil,
    or_false] at h
  rcases h with rfl | rfl | rfl | rfl | rfl
  · exact ⟨"", ", GSA Advantage, USAspending.gov, SBA Dynamic Small Business Search (DSBS), Federal Procurement Data System (FPDS)", rfl⟩
  · exact ⟨"GSA eLibrary, ", ", USAspending.gov, SBA Dynamic Small Business Search (DSBS), Federal Procurement Data System (FPDS)", rfl⟩
  · exact ⟨"GSA eLibrary, GSA Advantage, ", ", SBA Dynamic Small Business Search (DSBS), Federal Procurement Data System (FPDS)", rfl⟩
  · exact ⟨"GSA eLibrary, GSA Advantage, USAspending.gov, ", ", Federal Procurement Data System (FPDS)", rfl⟩
  · exact ⟨"GSA eLibrary, GSA Advantage, USAspending.gov, SBA Dynamic Small Business Search (DSBS), ", "", rfl⟩

/-- Decomposition of the base report prompt around the tone clause. -/
theorem base_report_tone_decomp (question context report_source report_format : String)
    (total_words : Int) (tone : Option String) (language : String) :
    PromptFamily.generate_report_prompt question context report_source report_format
        total_words tone language
      = ("Information gathered: \"" ++ context ++ "\"\n---\n" ++
          "Using that information, draft a " ++ toString total_words ++
          "+ word report answering: \"" ++ question ++ "\".\n" ++
          "• Use markdown + " ++ pyUpper report_format ++ " citations.\n" ++ "• ")
        ++ tone_clause tone
        ++ ("\n" ++ "• Language: " ++ language ++ ".\n") := by
  simp only [PromptFamily.generate_report_prompt]
  repeat rw [String.append_assoc]

/-- Decomposition of the base report prompt around the word-count demand. -/
theorem base_report_words_decomp (question context report_source report_format : String)
    (total_words : Int) (tone : Option String) (language : String) :
    PromptFamily.generate_report_prompt question context report_source report_format
        total_words tone language
      = ("Information gathered: \"" ++ context ++ "\"\n---\n" ++
          "Using that information, draft a ")
        ++ (toString total_words ++ "+ word")
        ++ (" report answering: \"" ++ question ++ "\".\n" ++
            "• Use markdown + " ++ pyUpper report_format ++ " citations.\n" ++
            "• " ++ tone_clause tone ++ "\n" ++
            "• Language: " ++ language ++ ".\n") := by
  simp only [PromptFamily.generate_report_prompt]
  rw [show ("+ word report answering: \"" : String) = "+ word" ++ " report answering: \"" from
    rfl]
  repeat rw [String.append_assoc]

/-- Decomposition of the FAR report prompt around the required-elements block. -/
theorem far_report_req_decomp (today question context report_source report_format : String)
    (total_words : Int) (tone : Option String) (language : String) :
    FARPart10PromptFamily.generate_report_prompt today question context report_source
        report_format total_words tone language
      = ("Information collected: \n\"" ++ context ++ "\"\n---\n" ++
          "Draft a concise FAR Part 10 market research report (≥" ++ toString total_words ++
          " words) addressing: \"" ++ question ++ "\".\n" ++ "Required elements:\n")
        ++ FARPart10PromptFamily.required_elements
        ++ ("• Use markdown + " ++ pyUpper report_format ++ " citations.\n" ++
            "• " ++ tone_clause tone ++ "  • " ++
            FARPart10PromptFamily.source_clause report_source ++ "\n" ++
            "• Date: " ++ today ++ ".  Language: " ++ language ++ ".") := by
  simp only [FARPart10PromptFamily.generate_report_prompt]
  repeat rw [String.append_assoc]

/-- Decomposition of the FAR report prompt around the source clause. -/
theorem far_report_source_decomp (today question context report_source report_format : String)
    (total_words : Int) (tone : Option String) (language : String) :
    FARPart10PromptFamily.generate_report_prompt today question context report_source
        report_format total_words tone language
      = ("Information collected: \n\"" ++ context ++ "\"\n---\n" ++
          "Draft a concise FAR Part 10 market research report (≥" ++ toString total_words ++
          " words) addressing: \"" ++ question ++ "\".\n" ++ "Required elements:\n" ++
          FARPart10PromptFamily.required_elements ++
          "• Use markdown + " ++ pyUpper report_format ++ " citations.\n" ++
          "• " ++ tone_clause tone ++ "  • ")
        ++ FARPart10PromptFamily.source_clause report_source
        ++ ("\n" ++ "• Date: " ++ today ++ ".  Language: " ++ language ++ ".") := by
  simp only [FARPart10PromptFamily.generate_report_prompt]
  repeat rw [String.append_assoc]

/-- Decomposition of the FAR report prompt around the word-count demand. -/
theorem far_report_words_decomp (today question context report_source report_format : String)
    (total_words : Int) (tone : Option String) (language : String) :
    FARPart10PromptFamily.generate_report_prompt today question context report_source
        report_format total_words tone language
      = ("Information collected: \n\"" ++ context ++ "\"\n---\n" ++
          "Draft a concise FAR Part 10 market research report (")
        ++ ("≥" ++ toString total_words ++ " words")
        ++ (") addressing: \"" ++ question ++ "\".\n" ++ "Required elements:\n" ++
            FARPart10PromptFamily.required_elements ++
            "• Use markdown + " ++ pyUpper report_format ++ " citations.\n" ++
            "• " ++ tone_clause tone ++ "  • " ++
            FARPart10PromptFamily.source_clause report_source ++ "\n" ++
            "• Date: " ++ today ++ ".  Language: " ++ language ++ ".") := by
  simp only [FARPart10PromptFamily.generate_report_prompt]
  rw [show ("Draft a concise FAR Part 10 market research report (≥" : String)
      = "Draft a concise FAR Part 10 market research report (" ++ "≥" from rfl]
  rw [show (" words) addressing: \"" : String) = " words" ++ ") addressing: \"" from rfl]
  repeat rw [String.append_assoc]

/-- The required-elements block split at the socio-economic-status marker. -/
theorem req_split_socio :
    FARPart10PromptFamily.required_elements
      = "1. Potential sources and their " ++ "socio‑economic status" ++
        " (e.g., Small, 8(a), HUBZone).\n2. Contract vehicles (GSA schedules, BPAs, IDIQs) where the requirement could be placed.\n3. Recent relevant contract awards with pricing data.\n4. Assessment of competition & capability.\n5. Recommendation (adequate competition? set‑aside feasible?).\n" :=
  rfl

/-- The required-elements block split at the contract-vehicles marker. -/
theorem req_split_vehicles :
    FARPart10PromptFamily.required_elements
      = "1. Potential sources and their socio‑economic status (e.g., Small, 8(a), HUBZone).\n2. " ++
        "Contract vehicles" ++
        " (GSA schedules, BPAs, IDIQs) where the requirement could be placed.\n3. Recent relevant contract awards with pricing data.\n4. Assessment of competition & capability.\n5. Recommendation (adequate competition? set‑aside feasible?).\n" :=
  rfl

/-- The required-elements block split at the recent-awards marker. -/
theorem req_split_awards :
    FARPart10PromptFamily.required_elements
      = "1. Potential sources and their socio‑economic status (e.g., Small, 8(a), HUBZone).\n2. Contract vehicles (GSA schedules, BPAs, IDIQs) where the requirement could be placed.\n3. " ++
        "Recent relevant contract awards" ++
        " with pricing data.\n4. Assessment of competition & capability.\n5. Recommendation (adequate competition? set‑aside feasible?).\n" :=
  rfl

/-- The required-elements block split at the competition-assessment marker. -/
theorem req_split_competition :
    FARPart10PromptFamily.required_elements
      = "1. Potential sources and their socio‑economic status (e.g., Small, 8(a), HUBZone).\n2. Contract vehicles (GSA schedules, BPAs, IDIQs) where the requirement could be placed.\n3. Recent relevant contract awards with pricing data.\n4. " ++
        "Assessment of competition" ++
        " & capability.\n5. Recommendation (adequate competition? set‑aside feasible?).\n" :=
  rfl

/-- The required-elements block split at the recommendation marker. -/
theorem req_split_recommendation :
    FARPart10PromptFamily.required_elements
      = "1. Potential sources and their socio‑economic status (e.g., Small, 8(a), HUBZone).\n2. Contract vehicles (GSA schedules, BPAs, IDIQs) where the requirement could be placed.\n3. Recent relevant contract awards with pricing data.\n4. Assessment of competition & capability.\n5. " ++
        "Recommendation" ++
        " (adequate competition? set‑aside feasible?).\n" :=
  rfl

/-- Every spec-named required-element marker is a literal substring of the FAR
report output, for all arguments. -/
theorem far_report_has_markers (today question context report_source report_format : String)
    (total_words : Int) (tone : Option String) (language : String) :
    ∀ m ∈ farMarkers, ∃ u v,
      FARPart10PromptFamily.generate_report_prompt today question context report_source
          report_format total_words tone language = u ++ m ++ v := by
  intro m hm
  have hd := far_report_req_decomp today question context report_source report_format
    total_words tone language
  simp only [farMarkers, List.mem_cons, List.not_mem_nil, or_false] at hm
  rcases hm with rfl | rfl | rfl | rfl | rfl
  · exact mid_split hd req_split_socio
  · exact mid_split hd req_split_vehicles
  · exact mid_split hd req_split_awards
  · exact mid_split hd req_split_competition
  · exact mid_split hd req_split_recommendation

/-- Length of the FAR example list for non-negative `max_iterations`. -/
theorem far_example_length (task : String) (max_iterations : Int) (h : 0 ≤ max_iterations) :
    (FARPart10PromptFamily.dynamic_example_list task max_iterations).length
      = min max_iterations.toNat 5 := by
  simp [FARPart10PromptFamily.dynamic_example_list, listSliceTo, h,
    FARPart10PromptFamily._PRIMARY_SOURCES]

/-! ### Claim theorems -/

/-- C1 counterexample: at `top_n = 0` with one document the code produces 0
blocks, while the claimed formula `min(top_n or len(documents), len(documents))`
(Python `or`, under which `0` is falsy) predicts 1 block. -/
theorem claim_C1_cex :
    specClaimedBlockCount (some 0) [docEx].length = 1
      ∧ ((PromptFamily.doc_blocks [docEx] (some 0)).length : Int) = 0
      ∧ ¬ (((PromptFamily.doc_blocks [docEx] (some 0)).length : Int)
            = specClaimedBlockCount (some 0) [docEx].length) := by
  decide

/-- C1 (amended): `pretty_print_docs` joins the block list with newlines; the
block list is the first `min(top_n, len(documents))` documents' blocks when
`top_n` is a non-negative integer (none when `top_n` is negative), and all of
them when `top_n` is `None`, in input order; and every block carries the
literal labels `Source:`, `Title:`, `Content:`. The claim's count formula
`min(top_n or len(documents), len(documents))` fails at `top_n = 0` because
Python `or` treats `0` as falsy (see the counterexample). -/
theorem claim_C1 (docs : List Document) (top_n : Option Int) :
    PromptFamily.pretty_print_docs docs top_n
        = String.intercalate "\n" (PromptFamily.doc_blocks docs top_n)
      ∧ PromptFamily.doc_blocks docs top_n
        = (match top_n with
           | none => docs
           | some n => docs.take n.toNat).map docBlock
      ∧ (PromptFamily.doc_blocks docs top_n).length
        = (match top_n with
           | none => docs.length
           | some n => min n.toNat docs.length)
      ∧ ∀ b ∈ PromptFamily.doc_blocks docs top_n, ∃ x y z,
          b = "Source: " ++ x ++ "\nTitle: " ++ y ++ "\nContent: " ++ z := by
  refine ⟨rfl, ?_, ?_, ?_⟩
  · cases top_n with
    | none => exact doc_blocks_none docs
    | some n => exact doc_blocks_some docs n
  · cases top_n with
    | none => rw [doc_blocks_none]; simp
    | some n => rw [doc_blocks_some]; simp [List.length_take]
  · intro b hb
    rcases top_n with _ | n
    · rw [doc_blocks_none] at hb
      rcases List.mem_map.mp hb with ⟨d, _, rfl⟩
      exact ⟨pyStrOf d.source, pyStrOf d.title, d.page_content, rfl⟩
    · rw [doc_blocks_some] at hb
      rcases List.mem_map.mp hb with ⟨d, _, rfl⟩
      exact ⟨pyStrOf d.source, pyStrOf d.title, d.page_content, rfl⟩

/-- C1 witness: the amended claim evaluated at a concrete one-document list. -/
theorem claim_C1_witness :
    ∃ x y z, docBlock docEx = "Source: " ++ x ++ "\nTitle: " ++ y ++ "\nContent: " ++ z :=
  (claim_C1 [docEx] (some 1)).2.2.2 (docBlock docEx) (by decide)

/-- C3 counterexample: at `max_iterations = -1` Python's slice
`_PRIMARY_SOURCES[:-1]` keeps four entries, which exceeds
`min(max_iterations, 5) = -1`, refuting the claimed bound for every value of
`max_iterations`. -/
theorem claim_C3_cex :
    ((FARPart10PromptFamily.dynamic_example_list "widget procurement" (-1)).length : Int) = 4
      ∧ min (-1 : Int) 5 = -1
      ∧ ¬ (((FARPart10PromptFamily.dynamic_example_list "widget procurement" (-1)).length : Int)
            ≤ min (-1 : Int) 5) := by
  decide

/-- C3 (amended): the specialized family's search-query prompt contains every
one of the five fixed primary-source names for every `max_iterations`, and for
every non-negative `max_iterations` the inline example list has exactly
`min(max_iterations, 5)` entries, hence never exceeds that bound; for negative
`max_iterations` Python slice semantics keep the first `5 + max_iterations`
entries (see the counterexample). -/
theorem claim_C3 (question parent_query report_type : String) (max_iterations : Int)
    (context : Option (List ToolInfo)) :
    (∀ src ∈ FARPart10PromptFamily._PRIMARY_SOURCES, ∃ u v,
        FARPart10PromptFamily.generate_search_queries_prompt question parent_query
            report_type max_iterations context = u ++ src ++ v)
      ∧ (∃ u v,
          FARPart10PromptFamily.generate_search_queries_prompt question parent_query
              report_type max_iterations context
            = u ++ String.intercalate ", "
                (FARPart10PromptFamily.dynamic_example_list (taskOf parent_query question)
                  max_iterations) ++ v)
      ∧ (0 ≤ max_iterations →
          ((FARPart10PromptFamily.dynamic_example_list (taskOf parent_query question)
              max_iterations).length : Int) ≤ min max_iterations 5) := by
  refine ⟨?_, ?_, ?_⟩
  · intro src h
    rcases gov_hint_has src h with ⟨a, b, hab⟩
    exact mid_split (far_gsqp_hint_decomp question parent_query report_type max_iterations
      context) hab
  · exact ⟨_, _, far_gsqp_examples_decomp question parent_query report_type max_iterations
      context⟩
  · intro h
    rw [far_example_length _ _ h]
    push_cast
    omega

/-- C3 witness: the amended claim evaluated at `max_iterations = 3` and the
first primary source. -/
theorem claim_C3_witness :
    (∃ u v, FARPart10PromptFamily.generate_search_queries_prompt "cloud hosting" "" "rt" 3 none
        = u ++ "GSA eLibrary" ++ v)
      ∧ ((FARPart10PromptFamily.dynamic_example_list (taskOf "" "cloud hosting") 3).length : Int)
          ≤ min (3 : Int) 5 :=
  ⟨(claim_C3 "cloud hosting" "" "rt" 3 none).1 "GSA eLibrary" (by decide),
   (claim_C3 "cloud hosting" "" "rt" 3 none).2.2 (by decide)⟩

/-- C2: an unknown family name falls back to an instance of the Default class
(same class, hence the same report operation) and emits exactly the one
warning naming the value; known names emit none; and the FARPart10 family's
report operation observably differs from the Default's — it contains every
fixed required-element marker, and its output differs from the Default's at
identical arguments. -/
theorem claim_C2 (name : String) (cfg : Option Config)
    (today question context report_source report_format : String) (total_words : Int)
    (tone : Option String) (language : String) :
    (prompt_family_mapping name = none →
      get_prompt_family name cfg
          = (⟨FamilyClass.Default, cfg⟩,
             ["Unknown prompt family '" ++ name ++ "', using Default."])
        ∧ (get_prompt_family name cfg).1 = (get_prompt_family "Default" cfg).1
        ∧ (get_prompt_family name cfg).2.length = 1
        ∧ report_method (get_prompt_family name cfg).1.family
            = report_method (get_prompt_family "Default" cfg).1.family)
      ∧ (get_prompt_family "Default" cfg).2 = []
      ∧ (get_prompt_family "FARPart10" cfg).1.family = FamilyClass.FARPart10
      ∧ (get_prompt_family "FARPart10" cfg).2 = []
      ∧ report_method FamilyClass.FARPart10 today question context report_source report_format
            total_words tone language
          = FARPart10PromptFamily.generate_report_prompt today question context report_source
              report_format total_words tone language
      ∧ (∀ m ∈ farMarkers, ∃ u v,
          report_method FamilyClass.FARPart10 today question context report_source
              report_format total_words tone language = u ++ m ++ v)
      ∧ report_method FamilyClass.FARPart10 "2025-06-01" "Q" "C" "web" "apa"
            FARPart10PromptFamily.total_words_default FARPart10PromptFamily.tone_default
            "english"
          ≠ report_method FamilyClass.Default "2025-06-01" "Q" "C" "web" "apa"
            PromptFamily.total_words_default PromptFamily.tone_default "english" := by
  refine ⟨?_, rfl, rfl, rfl, rfl, ?_, ?_⟩
  · intro h
    have hD : prompt_family_mapping "Default" = some FamilyClass.Default := rfl
    refine ⟨?_, ?_, ?_, ?_⟩ <;> simp [get_prompt_family, h, hD]
  · intro m hm
    exact far_report_has_markers today question context report_source report_format
      total_words tone language m hm
  · decide

/-- C2 witness: the fallback behavior evaluated at the concrete unknown name
`"NoSuchFamily"`. -/
theorem claim_C2_witness :
    get_prompt_family "NoSuchFamily" none
      = (⟨FamilyClass.Default, none⟩,
         ["Unknown prompt family 'NoSuchFamily', using Default."]) :=
  ((claim_C2 "NoSuchFamily" none "2025-06-01" "Q" "C" "web" "apa" 800 (some "objective")
      "english").1 (by decide)).1

/-- C4: for every choice of arguments the FAR report prompt contains all five
required-element markers, and it contains the contract-numbers directive
exactly when `report_source = "web"` (the clause is empty otherwise). -/
theorem claim_C4 (today question context report_source report_format : String)
    (total_words : Int) (tone : Option String) (language : String) :
    (∀ m ∈ farMarkers, ∃ u v,
        FARPart10PromptFamily.generate_report_prompt today question context report_source
            report_format total_words tone language = u ++ m ++ v)
      ∧ (∃ u v,
          FARPart10PromptFamily.generate_report_prompt today question context report_source
              report_format total_words tone language
            = u ++ FARPart10PromptFamily.source_clause report_source ++ v)
      ∧ (FARPart10PromptFamily.source_clause report_source
            = "List contract numbers & links from each cited system at the end."
          ↔ report_source = "web")
      ∧ (FARPart10PromptFamily.source_clause report_source = ""
          ↔ ¬ report_source = "web") := by
  refine ⟨far_report_has_markers today question context report_source report_format
      total_words tone language,
    ⟨_, _, far_report_source_decomp today question context report_source report_format
      total_words tone language⟩, ?_, ?_⟩
  · simp only [FARPart10PromptFamily.source_clause]
    by_cases h : report_source = "web"
    · rw [if_pos h]
      simp [h]
    · rw [if_neg h]
      constructor
      · intro hh
        exact absurd hh (by decide)
      · intro hh
        exact absurd hh h
  · simp only [FARPart10PromptFamily.source_clause]
    by_cases h : report_source = "web"
    · rw [if_pos h]
      constructor
      · intro hh
        exact absurd hh (by decide)
      · intro hh
        exact absurd h hh
    · rw [if_neg h]
      simp [h]

/-- C4 witness: the marker guarantee evaluated at concrete arguments with
`report_source = "web"`. -/
theorem claim_C4_witness :
    ∃ u v, FARPart10PromptFamily.generate_report_prompt "2025-06-01" "Q" "C" "web" "apa" 800
        (some "objective") "english" = u ++ "Recommendation" ++ v :=
  (claim_C4 "2025-06-01" "Q" "C" "web" "apa" 800 (some "objective") "english").1
    "Recommendation" (by decide)

/-- C5: with the default (`None`) or empty tone the base report prompt's tone
clause is empty, so the output carries no tone directive; with
`tone = "formal"` the clause is `"Write in a formal tone."`, which references
`"formal"`; the output always decomposes around the clause. -/
theorem claim_C5 (question context report_source report_format : String) (total_words : Int)
    (language : String) :
    tone_clause PromptFamily.tone_default = ""
      ∧ tone_clause (some "") = ""
      ∧ (∀ tone, ∃ u v,
          PromptFamily.generate_report_prompt question context report_source report_format
              total_words tone language = u ++ tone_clause tone ++ v)
      ∧ tone_clause (some "formal") = "Write in a formal tone."
      ∧ (∃ u v, tone_clause (some "formal") = u ++ "formal" ++ v) :=
  ⟨rfl, rfl,
   fun tone => ⟨_, _, base_report_tone_decomp question context report_source report_format
     total_words tone language⟩,
   rfl, ⟨"Write in a ", " tone.", rfl⟩⟩

/-- C6: in both query generators the embedded task is exactly the question
when `parent_query` is empty and exactly `parent_query ++ " - " ++ question`
otherwise, and both prompts decompose around that task. -/
theorem claim_C6 (question parent_query report_type : String) (max_iterations : Int)
    (context : Option (List ToolInfo)) :
    (parent_query = "" → taskOf parent_query question = question)
      ∧ (¬ parent_query = "" →
          taskOf parent_query question = parent_query ++ " - " ++ question)
      ∧ (∃ u v, PromptFamily.generate_search_queries_prompt question parent_query report_type
            max_iterations context = u ++ taskOf parent_query question ++ v)
      ∧ (∃ u v, FARPart10PromptFamily.generate_search_queries_prompt question parent_query
            report_type max_iterations context = u ++ taskOf parent_query question ++ v) := by
  refine ⟨?_, ?_,
    ⟨_, _, base_gsqp_task_decomp question parent_query report_type max_iterations context⟩,
    ⟨_, _, far_gsqp_task_decomp question parent_query report_type max_iterations context⟩⟩
  · intro h
    simp [taskOf, h]
  · intro h
    simp [taskOf, h]

/-- C6 witness: the task-combination rule evaluated at the concrete inputs
`parent_query = ""` and `parent_query = "P"`. -/
theorem claim_C6_witness :
    taskOf "" "X" = "X" ∧ taskOf "P" "X" = "P - X" :=
  ⟨(claim_C6 "X" "" "rt" 3 none).1 rfl,
   (claim_C6 "X" "P" "rt" 3 none).2.1 (by decide)⟩

/-- C7: every operation is a total function over the embedded input shapes
(each application equals some string), and missing document metadata degrades
to the `"None"` placeholder rather than failing. -/
theorem claim_C7 (src ttl : Option String) (pc : String) :
    docBlock ⟨src, ttl, pc⟩
        = "Source: " ++ pyStrOf src ++ "\nTitle: " ++ pyStrOf ttl ++ "\nContent: " ++ pc
      ∧ pyStrOf none = "None"
      ∧ docBlock ⟨none, none, pc⟩ = "Source: None\nTitle: None\nContent: " ++ pc
      ∧ (∀ docs top_n, ∃ s, PromptFamily.pretty_print_docs docs top_n = s)
      ∧ (∀ q p rt mi ctx, ∃ s,
          PromptFamily.generate_search_queries_prompt q p rt mi ctx = s)
      ∧ (∀ q c rs rf tw tone lang, ∃ s,
          PromptFamily.generate_report_prompt q c rs rf tw tone lang = s)
      ∧ (∀ q p rt mi ctx, ∃ s,
          FARPart10PromptFamily.generate_search_queries_prompt q p rt mi ctx = s)
      ∧ (∀ t q c rs rf tw tone lang, ∃ s,
          FARPart10PromptFamily.generate_report_prompt t q c rs rf tw tone lang = s)
      ∧ (∀ q tools mt, ∃ s,
          FARPart10PromptFamily.generate_mcp_tool_selection_prompt q tools mt = s) :=
  ⟨rfl, rfl, rfl,
   fun _ _ => ⟨_, rfl⟩,
   fun _ _ _ _ _ => ⟨_, rfl⟩,
   fun _ _ _ _ _ _ _ => ⟨_, rfl⟩,
   fun _ _ _ _ _ => ⟨_, rfl⟩,
   fun _ _ _ _ _ _ _ _ => ⟨_, rfl⟩,
   fun _ _ _ => ⟨_, rfl⟩⟩

/-- C8: the base query generator's output does not depend on `report_type` or
`context`, and the base report generator's output does not depend on
`report_source`. -/
theorem claim_C8 (question parent_query rt1 rt2 : String) (max_iterations : Int)
    (c1 c2 : Option (List ToolInfo)) (q c rs1 rs2 report_format : String)
    (total_words : Int) (tone : Option String) (language : String) :
    PromptFamily.generate_search_queries_prompt question parent_query rt1 max_iterations c1
        = PromptFamily.generate_search_queries_prompt question parent_query rt2
            max_iterations c2
      ∧ PromptFamily.generate_report_prompt q c rs1 report_format total_words tone language
        = PromptFamily.generate_report_prompt q c rs2 report_format total_words tone
            language :=
  ⟨rfl, rfl⟩

/-- C9: the report-type selector resolves `"ResearchReport"` and every name
absent from the table to the same operation — the family's
`generate_report_prompt`. -/
theorem claim_C9 (fam : FamilyInstance) (s : String) :
    get_prompt_by_report_type "ResearchReport" fam = some (report_method fam.family)
      ∧ (report_type_mapping s = none →
          get_prompt_by_report_type s fam
            = get_prompt_by_report_type "ResearchReport" fam) := by
  constructor
  · rfl
  · intro h
    unfold get_prompt_by_report_type
    rw [h]
    rfl

/-- C9 witness: the selector evaluated at the concrete unknown report type
`"anything-else"`. -/
theorem claim_C9_witness :
    get_prompt_by_report_type "anything-else" ⟨FamilyClass.Default, none⟩
      = get_prompt_by_report_type "ResearchReport" ⟨FamilyClass.Default, none⟩ :=
  (claim_C9 ⟨FamilyClass.Default, none⟩ "anything-else").2 (by decide)

/-- C10: the FAR report default word count is 800 versus the base family's
1000; called with every optional argument at its default, the FAR prompt
demands "≥800 words" while the base prompt demands a "1000+ word" report. -/
theorem claim_C10 (today question context report_source : String) :
    PromptFamily.total_words_default = 1000
      ∧ FARPart10PromptFamily.total_words_default = 800
      ∧ ¬ PromptFamily.total_words_default = FARPart10PromptFamily.total_words_default
      ∧ (∃ u v,
          FARPart10PromptFamily.generate_report_prompt today question context report_source
              "apa" FARPart10PromptFamily.total_words_default
              FARPart10PromptFamily.tone_default "english"
            = u ++ "≥800 words" ++ v)
      ∧ (∃ u v,
          PromptFamily.generate_report_prompt question context report_source "apa"
              PromptFamily.total_words_default PromptFamily.tone_default "english"
            = u ++ "1000+ word" ++ v) := by
  refine ⟨rfl, rfl, by decide, ?_, ?_⟩
  · have h := far_report_words_decomp today question context report_source "apa"
      FARPart10PromptFamily.total_words_default FARPart10PromptFamily.tone_default "english"
    rw [show ("≥" ++ toString FARPart10PromptFamily.total_words_default ++ " words" : String)
        = "≥800 words" from rfl] at h
    exact ⟨_, _, h⟩
  · have h := base_report_words_decomp question context report_source "apa"
      PromptFamily.total_words_default PromptFamily.tone_default "english"
    rw [show (toString PromptFamily.total_words_default ++ "+ word" : String)
        = "1000+ word" from rfl] at h
    exact ⟨_, _, h⟩
